import Mathlib

/-!
Verification development for the adaptive OCR and table-reconstruction
pipeline of the tender-document platform.

The Python sources are shallowly embedded as pure Lean functions.  External
effectful collaborators (the PDF rasterizer `pdf2image`, the OCR engine
`pytesseract`, the image library and OpenCV) are modelled as *environment
oracles*: inductive outcome types record, for each call the code makes,
whether that call returned a value or raised, and which value it returned.
All control flow, arithmetic, string formatting and data-structure
manipulation of the Python code itself is translated directly.

Numeric conventions:
* Python `float` values in the embedded code are small decimal constants
  (timeouts, thresholds, ratios) and the arithmetic performed on them is
  exact at these magnitudes, so they are embedded as exactly scaled
  integers: time budgets in milliseconds (`timeout_s = 8.0` ↦ `8000`),
  image-statistic ratios scaled by `10^6` (`0.005` ↦ `5000`), and the one
  half-integral comparison (`dist < (w + h) * 0.5`) stated multiplicatively
  as `2 * dist < w + h`, which is equivalent over the integers involved.
  Each scaled definition notes its source constant.
* Python `int` is `ℤ` (or `ℕ` where the source value is a count/page number),
  and Python floor division `//` is `Int.fdiv`.
-/

namespace TenderOCR

/-! ## Generic string helpers

Python's substring test `needle in haystack` is embedded by an explicit
executable scan over the character lists. -/

/-- Predicate `listPrefixEq n h` is true when `n` is a prefix of `h` (Python
`haystack.startswith(needle)` at the list-of-characters level). -/
def listPrefixEq : List Char → List Char → Bool
  | [], _ => true
  | _ :: _, [] => false
  | a :: as, b :: bs => a = b && listPrefixEq as bs

/-- Predicate `containsSeg n h` is true when `n` occurs contiguously in `h`. -/
def containsSeg (needle : List Char) : List Char → Bool
  | [] => listPrefixEq needle []
  | c :: cs => listPrefixEq needle (c :: cs) || containsSeg needle cs

/-- Python's `needle in haystack` on strings. -/
def strContains (haystack needle : String) : Bool :=
  containsSeg needle.data haystack.data

/-! ## `table_ocr.py` — data model -/

/-- Source `GridCell` (table_ocr.py): a cell in the virtual grid with its bounding
box and the list of words assigned to it so far. -/
structure GridCell where
  row : Nat
  col : Nat
  x : Int
  y : Int
  w : Int
  h : Int
  words : List String
deriving DecidableEq

/-- Source `GridCell.text` property: `" ".join(self.words)`. -/
def GridCell.text (c : GridCell) : String :=
  String.intercalate " " c.words

/-- Source `WordBox` (table_ocr.py): a word extracted by Tesseract with its
bounding box and confidence. -/
structure WordBox where
  text : String
  x : Int
  y : Int
  w : Int
  h : Int
  conf : Int
deriving DecidableEq

/-- Source `DetectedTable` (table_ocr.py): a fully reconstructed table. -/
structure DetectedTable where
  x : Int
  y : Int
  w : Int
  h : Int
  rows : Nat
  cols : Nat
  cells : List GridCell
  latex : String
deriving DecidableEq

/-! ## `table_ocr.py` — Phase 1: virtual grid -/

/-- Consecutive pairs of a list: `[(l[0],l[1]), (l[1],l[2]), …]`, mirroring
the Python loops over `positions[ri]`, `positions[ri+1]`. -/
def consecPairs : List Int → List (Int × Int)
  | a :: b :: rest => (a, b) :: consecPairs (b :: rest)
  | _ => []

/-- Source `_build_virtual_grid` (table_ocr.py:158-187): build a grid of cells from
detected line positions.  Requires at least 2 horizontal and 2 vertical
lines; skips slivers thinner than 8 pixels.  The `img_h`/`img_w` parameters
of the source are unused there and omitted here. -/
def build_virtual_grid (h_positions v_positions : List Int) : List GridCell :=
  if h_positions.length < 2 ∨ v_positions.length < 2 then []
  else
    ((consecPairs h_positions).enum).flatMap fun rrow =>
      ((consecPairs v_positions).enum).filterMap fun ccol =>
        let ri := rrow.1; let y1 := rrow.2.1; let y2 := rrow.2.2
        let ci := ccol.1; let x1 := ccol.2.1; let x2 := ccol.2.2
        if y2 - y1 < 8 ∨ x2 - x1 < 8 then none
        else some ⟨ri, ci, x1, y1, x2 - x1, y2 - y1, []⟩

/-! ## `table_ocr.py` — Phase 3: coordinate merging -/

/-- Source `_word_center` (table_ocr.py:268-269): bounding-box center with Python
floor division. -/
def word_center (wb : WordBox) : Int × Int :=
  (wb.x + wb.w.fdiv 2, wb.y + wb.h.fdiv 2)

/-- Containment test from `assign_words_to_cells`:
`cell.x <= cx <= cell.x + cell.w and cell.y <= cy <= cell.y + cell.h`. -/
def cell_contains (c : GridCell) (cx cy : Int) : Bool :=
  decide (c.x ≤ cx) && decide (cx ≤ c.x + c.w) &&
  decide (c.y ≤ cy) && decide (cy ≤ c.y + c.h)

/-- Manhattan distance from a point to a cell's center
(`abs(cx - cell_cx) + abs(cy - cell_cy)` with `cell_cx = cell.x + cell.w // 2`
etc.). -/
def word_cell_dist (c : GridCell) (cx cy : Int) : Int :=
  ((cx - (c.x + c.w.fdiv 2)).natAbs + (cy - (c.y + c.h.fdiv 2)).natAbs : ℕ)

/-- Twice the fallback distance bound of `assign_words_to_cells`: the
source's `max_dist = (cell.w + cell.h) * 0.5` is half-integral, so the
comparison `dist < max_dist` is embedded exactly as
`2 * dist < max_fallback_dist_twice`. -/
def max_fallback_dist_twice (c : GridCell) : Int :=
  c.w + c.h

/-- The fallback scan of `assign_words_to_cells` (table_ocr.py:293-303):
fold over the cells keeping the first strict minimizer of the distance,
considering only cells with `dist < max_dist`.  Returns the chosen cell's
index (into the cell list) and its distance, or `none`.
`best_dist` starts at `float("inf")`, embedded as the `none` accumulator. -/
def scan_step (cx cy : Int) (best : Option (Nat × Int)) (ic : Nat × GridCell) :
    Option (Nat × Int) :=
  match best with
  | none =>
      if 2 * word_cell_dist ic.2 cx cy < max_fallback_dist_twice ic.2 then
        some (ic.1, word_cell_dist ic.2 cx cy)
      else none
  | some (bi, bd) =>
      if word_cell_dist ic.2 cx cy < bd ∧
          2 * word_cell_dist ic.2 cx cy < max_fallback_dist_twice ic.2 then
        some (ic.1, word_cell_dist ic.2 cx cy)
      else some (bi, bd)

def fallback_scan (cells : List GridCell) (cx cy : Int) : Option (Nat × Int) :=
  cells.enum.foldl (scan_step cx cy) none

/-- Replace the element at an index (in-place mutation of one cell in the
Python list, expressed functionally). -/
def modifyAt : List GridCell → Nat → (GridCell → GridCell) → List GridCell
  | [], _, _ => []
  | c :: cs, 0, f => f c :: cs
  | c :: cs, Nat.succ n, f => c :: modifyAt cs n f

/-- Append one word to a cell (`best_cell.words.append(wb.text)`). -/
def appendWord (wb : WordBox) (c : GridCell) : GridCell :=
  { c with words := c.words ++ [wb.text] }

/-- Processing of a single word in `assign_words_to_cells`: first the
containment pass (breaking at the first containing cell), then the
bounded nearest-center fallback, otherwise the word is dropped. -/
def assign_word (cells : List GridCell) (wb : WordBox) : List GridCell :=
  let cxy := word_center wb
  match cells.findIdx? (fun c => cell_contains c cxy.1 cxy.2) with
  | some i => modifyAt cells i (appendWord wb)
  | none =>
      match fallback_scan cells cxy.1 cxy.2 with
      | some id => modifyAt cells id.1 (appendWord wb)
      | none => cells

/-- Source `assign_words_to_cells` (table_ocr.py:272-306).  The source mutates the
cell list in place; the embedding threads it through a fold.  The early
`if not cells: return` is subsumed: every branch leaves an empty list
unchanged. -/
def assign_words_to_cells (cells : List GridCell) (words : List WordBox) :
    List GridCell :=
  words.foldl assign_word cells

/-! ## `table_ocr.py` — Phase 4: LaTeX serialization -/

/-- Source `_escape_latex` (table_ocr.py:313-329): the replacement chain applied in
exactly the source order (so the braces introduced by the backslash
replacement are themselves escaped by the later brace rules, as in the
source).  Literal braces are written with `\x7b`/`\x7d` escapes. -/
def escape_latex (text : String) : String :=
  let t := text.replace "\\" "\\textbackslash\x7b\x7d"
  let t := t.replace "&" "\\&"
  let t := t.replace "%" "\\%"
  let t := t.replace "$" "\\$"
  let t := t.replace "#" "\\#"
  let t := t.replace "_" "\\_"
  let t := t.replace "\x7b" "\\\x7b"
  let t := t.replace "\x7d" "\\\x7d"
  let t := t.replace "~" "\\textasciitilde\x7b\x7d"
  t.replace "^" "\\textasciicircum\x7b\x7d"

/-- The entry of the row-major grid built by `cells_to_latex`:
`grid[cell.row][cell.col] = _escape_latex(cell.text)` assigns in list order,
so the last cell with a given `(row, col)` wins, default `""`. -/
def gridEntry (cells : List GridCell) (r c : Nat) : String :=
  ((cells.filter (fun cell => cell.row == r && cell.col == c)).map
    (fun cell => escape_latex cell.text)).getLastD ""

/-- Source `cells_to_latex` (table_ocr.py:332-371). -/
def cells_to_latex (cells : List GridCell) (table_index : Nat) : String :=
  if cells = [] then ""
  else
    let max_row := (cells.map (·.row)).foldl max 0
    let max_col := (cells.map (·.col)).foldl max 0
    let n_rows := max_row + 1
    let n_cols := max_col + 1
    let col_spec := String.intercalate "|" (List.replicate n_cols "l")
    let header :=
      "% TABLE " ++ toString table_index ++ " — " ++ toString n_rows ++
        " rows x " ++ toString n_cols ++ " cols"
    let beginLine := "\\begin\x7btabular\x7d\x7b|" ++ col_spec ++ "|\x7d"
    let rowLines :=
      (List.range n_rows).flatMap fun r =>
        [String.intercalate " & "
            ((List.range n_cols).map (gridEntry cells r)) ++ " \\\\",
         "\\hline"]
    String.intercalate "\n"
      ([header, beginLine, "\\hline"] ++ rowLines ++ ["\\end\x7btabular\x7d"])

/-! ## `table_ocr.py` — orchestrator -/

/-- Source `process_page_table` (table_ocr.py:378-428), from the point where the
image has been analysed.  Phase 1's OpenCV image analysis is the
environment: the detected `h_positions`/`v_positions` are inputs, as is the
Phase-2 word list returned by Tesseract (`extract_word_boxes` returns `[]`
when the OCR call raises, so a plain list covers all its outcomes).
Everything from the line positions onward is translated from the source. -/
def process_page_table (h_positions v_positions : List Int)
    (words : List WordBox) (table_index : Nat) : Option DetectedTable :=
  let cells := build_virtual_grid h_positions v_positions
  if cells = [] then none
  else
    let cells := assign_words_to_cells cells words
    let max_row := (cells.map (·.row)).foldl max 0
    let max_col := (cells.map (·.col)).foldl max 0
    let latex := cells_to_latex cells table_index
    some
      { x := v_positions.headD 0
        y := h_positions.headD 0
        w := if v_positions.length ≥ 2 then
               v_positions.getLastD 0 - v_positions.headD 0 else 0
        h := if h_positions.length ≥ 2 then
               h_positions.getLastD 0 - h_positions.headD 0 else 0
        rows := max_row + 1
        cols := max_col + 1
        cells := cells
        latex := latex }

/-! ## `table_ocr.py` — page-level table OCR and merge

The full-document OCR text is a sequence of `--- Page N ---` sections; the
canonical rendering (produced by the scheduler, consumed by the regex in
`reocr_bordereau_pages`) is embedded structurally as a list of page entries.
The page-slice regex substitution of the source replaces exactly the body of
the matching page entry, so the substitution is embedded as a pointwise
update of that entry. -/

/-- One `--- Page num ---` section of the full OCR text. -/
structure PageEntry where
  num : Nat
  body : String
deriving DecidableEq

/-- Outcome of one page inside `ocr_pages_with_table_extraction`
(table_ocr.py:501-564): the rasterizer raised, the rasterizer returned no
image, the per-page pipeline raised, or `ocr_page_with_table_detection`
returned a string (possibly empty). -/
inductive TablePageOutcome where
  | convRaise (msg : String)
  | noImages
  | pageRaise (msg : String)
  | pageText (s : String)
deriving DecidableEq

/-- Environment of `ocr_pages_with_table_extraction`: an optional
whole-call failure (the outer `except`) and a per-page outcome. -/
structure TableEnv where
  wholeFail : Option String
  page : Nat → TablePageOutcome

/-- The string recorded for one page by `ocr_pages_with_table_extraction`
(table_ocr.py:524-558). -/
def tp_result (n : Nat) : TablePageOutcome → String
  | .convRaise m => "[OCR ERROR on page " ++ toString n ++ ": " ++ m ++ "]"
  | .noImages => "[Page " ++ toString n ++ " conversion failed]"
  | .pageRaise m => "[OCR ERROR on page " ++ toString n ++ ": " ++ m ++ "]"
  | .pageText s =>
      if s = "" then "[Page " ++ toString n ++ ": No text detected]" else s

/-- Source `ocr_pages_with_table_extraction` (table_ocr.py:501-564): the returned
`page_number → text` dict, as an association list in iteration order.  On a
whole-call failure every requested page maps to the `[OCR FAILED: …]`
placeholder (table_ocr.py:562-564). -/
def ocr_pages_with_table_extraction (tenv : TableEnv) (pages : List Nat) :
    List (Nat × String) :=
  match tenv.wholeFail with
  | some m => pages.map (fun p => (p, "[OCR FAILED: " ++ m ++ "]"))
  | none => pages.map (fun p => (p, tp_result p (tenv.page p)))

/-- The failure filter of `reocr_bordereau_pages` (table_ocr.py:630):
`"[OCR" in table_text or "[Page" in table_text`. -/
def is_failed_table_text (s : String) : Bool :=
  strContains s "[OCR" || strContains s "[Page"

/-- Merge of a single `(page_num, table_text)` result into the document
(table_ocr.py:629-645): failed results are skipped; otherwise the matching
page's body is replaced by the new text. -/
def merge_one (acc : List PageEntry) (r : Nat × String) : List PageEntry :=
  if is_failed_table_text r.2 then acc
  else acc.map (fun e => if e.num == r.1 then { e with body := r.2 } else e)

/-- The page selection of `reocr_bordereau_pages` (table_ocr.py:612-615):
a truthy `force_pages` wins, otherwise the keyword heuristic's detection
result (here a parameter: `detect_bordereau_pages(original_text)` is a pure
function of the text whose regex internals are not needed by the claims —
only whether its result is empty). -/
def select_pages_tesseract (force_pages : Option (List Nat))
    (detected : List Nat) : List Nat :=
  match force_pages with
  | some (p :: rest) => p :: rest
  | _ => detected

/-- Source `reocr_bordereau_pages` (table_ocr.py:603-646): select pages, re-OCR
them with the table pipeline, and splice successful results back in.  An
empty selection returns the original text unchanged (table_ocr.py:617-619). -/
def reocr_bordereau_pages (doc : List PageEntry)
    (force_pages : Option (List Nat)) (detected : List Nat)
    (tenv : TableEnv) : List PageEntry :=
  let pages := select_pages_tesseract force_pages detected
  if pages = [] then doc
  else (ocr_pages_with_table_extraction tenv pages).foldl merge_one doc

/-! ## `azure_doc_intelligence.py` — page selection with last-N fallback -/

/-- Python truthiness of the `force_pages` argument (`if force_pages:`). -/
def force_falsy : Option (List Nat) → Bool
  | none => true
  | some [] => true
  | some (_ :: _) => false

/-- Source expression `max(int(p) for p in page_numbers_in_text)`
(azure_doc_intelligence.py:394). -/
def max_marker (markers : List Nat) : Nat := markers.foldl max 0

/-- The forced page range of the Azure fallback
(azure_doc_intelligence.py:396-397):
`list(range(max(1, total_pages - 9), total_pages + 1))`. -/
def azure_last_pages (total : Nat) : List Nat :=
  List.range' (max 1 (total - 9)) (total + 1 - max 1 (total - 9))

/-- The page-selection logic of `reocr_bordereau_pages_azure`
(azure_doc_intelligence.py:383-413): forced pages win; otherwise the
AI/heuristic detection (`detected`, a parameter); if that is empty, fall
back to the last 10 pages computed from the page markers present in the
text (`markers`), or give up (`none` = return the original text) when there
are no markers; finally truncate to `MAX_PAGES = 15`. -/
def select_pages_azure (force_pages : Option (List Nat))
    (detected : List Nat) (markers : List Nat) : Option (List Nat) :=
  let pages :=
    match force_pages with
    | some (p :: rest) => p :: rest
    | _ => detected
  let chosen : Option (List Nat) :=
    if pages = [] then
      if markers = [] then none
      else some (azure_last_pages (max_marker markers))
    else some pages
  chosen.map (fun l => l.take 15)

/-! ## `tesseract_ocr.py` — page classification and profiles -/

/-- Source `PageType` (tesseract_ocr.py:55-59). -/
inductive PageType where
  | simple
  | medium
  | complex
  | image
deriving DecidableEq

/-- Source `PageProfile` (tesseract_ocr.py:62-70).  The source's `timeout_s`
float (a per-page budget in seconds with one decimal digit) is embedded
exactly as milliseconds. -/
structure PageProfile where
  page_num : Nat
  page_type : PageType
  dpi : Nat
  psm : Nat
  timeout_ms : Nat
  use_table_ocr : Bool
deriving DecidableEq

/-- The three image statistics `_classify_page_complexity` computes with
OpenCV from the thumbnail (tesseract_ocr.py:87-98), scaled by `10^6`
(each is a pixel-count ratio in `[0, 1]`; all thresholds compared against
them are multiples of `10^-6`, so the scaling is exact). -/
structure PageFeatures where
  edge_ratio_e6 : Nat
  text_ratio_e6 : Nat
  h_line_ratio_e6 : Nat
deriving DecidableEq

/-- Outcome of the image analysis inside `_classify_page_complexity`: the
statistics, or any internal exception (the catch-all at
tesseract_ocr.py:109). -/
inductive ClassifyOutcome where
  | ok (f : PageFeatures)
  | error
deriving DecidableEq

/-- Source `_classify_page_complexity` (tesseract_ocr.py:73-111): threshold chain
on the three statistics; any internal error returns `MEDIUM_TABLE`
(the source's `# safe default`). -/
def classify_page_complexity : ClassifyOutcome → PageType
  | .ok f =>
      -- thresholds 0.005, 0.08, 0.002, 0.06, 0.02 scaled by 10^6
      if f.h_line_ratio_e6 > 5000 ∧ f.edge_ratio_e6 > 80000 then .complex
      else if f.h_line_ratio_e6 > 2000 ∨ f.edge_ratio_e6 > 60000 then .medium
      else if f.text_ratio_e6 < 20000 then .image
      else .simple
  | .error => .medium

/-- The per-class profile tuple of `build_page_profiles`
(tesseract_ocr.py:160-168); timeouts 6.0 s, 8.0 s, 10.0 s, 5.0 s in
milliseconds. -/
def profileFor (page_num : Nat) : PageType → PageProfile
  | .simple => ⟨page_num, .simple, 150, 3, 6000, false⟩
  | .medium => ⟨page_num, .medium, 200, 6, 8000, true⟩
  | .complex => ⟨page_num, .complex, 250, 6, 10000, true⟩
  | .image => ⟨page_num, .image, 150, 1, 5000, false⟩

/-- The default profile used when the 72-DPI pre-scan conversion fails
(tesseract_ocr.py:149-152): `MEDIUM_TABLE`, 150 DPI, psm 3, 8.0 s. -/
def default_profile (page_num : Nat) : PageProfile :=
  ⟨page_num, .medium, 150, 3, 8000, false⟩

/-- Outcome of `pdfinfo_from_bytes` (tesseract_ocr.py:123-127): a page
count, or an exception (which the source replaces with the cap `50`). -/
inductive PdfInfoOutcome where
  | ok (pages : Nat)
  | error
deriving DecidableEq

/-- Outcome of the 72-DPI `convert_from_bytes` pre-scan
(tesseract_ocr.py:136-147): one classification outcome per produced
thumbnail, or an exception. -/
inductive PrescanOutcome where
  | ok (thumbs : List ClassifyOutcome)
  | error

/-- Environment of `build_page_profiles`: the two rasterizer calls it
makes. -/
structure BuildEnv where
  pdfinfo : PdfInfoOutcome
  prescan : PrescanOutcome

/-- The page count used by `build_page_profiles`
(tesseract_ocr.py:123-127): `except` sets `total_pages = 50  # cap`. -/
def total_pages_of : PdfInfoOutcome → Nat
  | .ok pages => pages
  | .error => 50

/-- The error type named by the specification for unreadable documents.
The embedded source never produces it: the claims compare the code against
this part of the spec. -/
inductive DocError where
  | documentUnreadable
deriving DecidableEq

/-- Source `build_page_profiles` (tesseract_ocr.py:114-178).  The `Except` result
type records whether the function raises: every branch of the source
returns normally (`pdfinfo` failure → 50-page cap; pre-scan failure →
default profiles; per-thumbnail classification failure → safe default
inside `_classify_page_complexity`), so every branch here is `Except.ok`. -/
def build_page_profiles (benv : BuildEnv) :
    Except DocError (List PageProfile) :=
  let total_pages := total_pages_of benv.pdfinfo
  if total_pages = 0 then .ok []
  else
    match benv.prescan with
    | .error =>
        .ok ((List.range total_pages).map (fun i => default_profile (i + 1)))
    | .ok thumbs =>
        .ok (thumbs.enum.map
          (fun it => profileFor (it.1 + 1) (classify_page_complexity it.2)))

/-- The profile list actually produced (the `Except` never carries an
error, see `build_page_profiles`). -/
def profilesOf (benv : BuildEnv) : List PageProfile :=
  match build_page_profiles benv with
  | .ok l => l
  | .error _ => []

/-! ## `tesseract_ocr.py` — adaptive scheduler -/

/-- Source expression `estimated_time = sum(p.timeout_s * 0.5 for p in profiles)`
(tesseract_ocr.py:342), in milliseconds.  Every profile timeout the
pipeline produces is an even number of milliseconds, so the halving is
exact. -/
def estimated_time_ms (profiles : List PageProfile) : Nat :=
  (profiles.map (fun p => p.timeout_ms / 2)).sum

/-- The in-place fast-mode downgrade of one profile
(tesseract_ocr.py:345-348): `dpi = min(dpi, 150)`,
`timeout_s = min(timeout_s, 6.0)`, table OCR only for complex pages. -/
def downgrade_one (p : PageProfile) : PageProfile :=
  { p with
      dpi := min p.dpi 150
      timeout_ms := min p.timeout_ms 6000
      use_table_ocr := decide (p.page_type = PageType.complex) }

/-- The profile list the scheduler hands to per-page OCR
(tesseract_ocr.py:335-348): the built profiles, downgraded to fast mode
when the estimated total time exceeds the ceiling
(`estimated_time > 30.0` seconds). -/
def sched_profiles (benv : BuildEnv) : List PageProfile :=
  let profiles := profilesOf benv
  if estimated_time_ms profiles > 30000 then profiles.map downgrade_one
  else profiles

/-- Outcome of the per-page `convert_from_bytes` call at the page's target
DPI (tesseract_ocr.py:374-397): an image (with pixel dimensions), an empty
image list (`if images:` is skipped and nothing is recorded), or an
exception. -/
inductive ConvOutcome where
  | ok (width height : Nat)
  | emptyList
  | failure
deriving DecidableEq

/-- Outcome of the first `pytesseract.image_to_string` attempt in
`_ocr_single_page_adaptive` (tesseract_ocr.py:220-226): text, or an
exception/timeout.  Exceptions raised by the image preprocessing between
the table branch and the OCR call land in the same `except` and are folded
into `failure`. -/
inductive Ocr1Outcome where
  | ok (text : String)
  | failure
deriving DecidableEq

/-- Outcome of the `process_page_table` call in the table branch
(tesseract_ocr.py:206-212): a table or `None`, or an exception (caught by
the inner `except`). -/
inductive TableCallOutcome where
  | ok (t : Option DetectedTable)
  | raised
deriving DecidableEq

/-- Outcome of the fallback `pytesseract.image_to_string` call in
`_ocr_fallback` (tesseract_ocr.py:245-250): text, or any exception in the
fallback body (including its `Image.open`). -/
inductive FbOutcome where
  | ok (text : String)
  | failure
deriving DecidableEq

/-- Environment of the processing of one page: the rasterizer call, whether
`Image.open` raises at the top of `_ocr_single_page_adaptive`, the table
branch, the two OCR calls, and whether the outer
`future.result(timeout=15.0)` times out. -/
structure PageEnv where
  conv : ConvOutcome
  openErr : Bool
  tableCall : TableCallOutcome
  ocr1 : Ocr1Outcome
  fb : FbOutcome
  futureTimeout : Bool

/-- The terminal placeholder of `_ocr_fallback` (tesseract_ocr.py:257). -/
def ocr_failed_placeholder (page_num : Nat) : String :=
  "[Page " ++ toString page_num ++ ": OCR failed after all attempts]"

/-- Source `_ocr_fallback` (tesseract_ocr.py:234-257): one low-cost OCR attempt;
non-empty stripped text is returned, anything else yields the terminal
placeholder. -/
def ocr_fallback (page_num : Nat) (env : PageEnv) : Nat × String :=
  match env.fb with
  | .ok text =>
      if text.trim = "" then (page_num, ocr_failed_placeholder page_num)
      else (page_num, text.trim)
  | .failure => (page_num, ocr_failed_placeholder page_num)

/-- The table branch of `_ocr_single_page_adaptive`
(tesseract_ocr.py:204-212): `if table and table.latex and
len(table.latex) > 50: return (page_num, table.latex)`.  `some latex` means
the branch returns; `none` means control falls through to standard OCR
(including when `process_page_table` raised, caught at line 211). -/
def table_branch_result (use_table_ocr : Bool) (env : PageEnv) :
    Option String :=
  if use_table_ocr then
    match env.tableCall with
    | .ok (some t) =>
        if t.latex ≠ "" ∧ t.latex.length > 50 then some t.latex else none
    | .ok none => none
    | .raised => none
  else none

/-- The standard-OCR tail of `_ocr_single_page_adaptive`
(tesseract_ocr.py:214-231): attempt 1, falling back to `_ocr_fallback` on
any exception. -/
def standard_ocr (page_num : Nat) (env : PageEnv) : Nat × String :=
  match env.ocr1 with
  | .ok text => (page_num, text.trim)
  | .failure => ocr_fallback page_num env

/-- Source `_ocr_single_page_adaptive` (tesseract_ocr.py:185-231): if `Image.open`
raises, the whole `try` fails straight into `_ocr_fallback`; otherwise the
table branch may return early, else standard OCR runs. -/
def ocr_single_page_adaptive (page_num : Nat) (use_table_ocr : Bool)
    (env : PageEnv) : Nat × String :=
  if env.openErr then ocr_fallback page_num env
  else
    match table_branch_result use_table_ocr env with
    | some latex => (page_num, latex)
    | none => standard_ocr page_num env

/-! ### OCR attempt traces

To state the two-attempt fallback bound, the plain-text OCR calls
(`pytesseract.image_to_string`) that `_ocr_single_page_adaptive` and
`_ocr_fallback` issue are recorded as a trace.  Each attempt carries its
cost parameters: the pixel area of the image given to Tesseract (rotation
at tesseract_ocr.py:200-202 preserves the area; the fallback resize at
tesseract_ocr.py:243 halves each dimension with floor division) and the
timeout passed to the call. -/

/-- One `image_to_string` call with its cost parameters (timeout in
milliseconds). -/
structure OcrAttempt where
  pixels : Nat
  timeout_ms : Nat
deriving DecidableEq

/-- The fallback attempt: image reopened from the original bytes and
resized to `(width // 2, height // 2)`, fixed `timeout=5.0` seconds
(tesseract_ocr.py:241-250). -/
def fallback_attempt (width height : Nat) : OcrAttempt :=
  ⟨(width / 2) * (height / 2), 5000⟩

/-- The trace of `image_to_string` calls for one page with image dimensions
`width × height` and first-attempt timeout `timeout_ms`.  When the body
fails before the first OCR call (`openErr`), only the fallback call can
run; when the table branch returns, no plain-text OCR call runs at all. -/
def ocr_attempt_trace (width height : Nat) (timeout_ms : Nat)
    (use_table_ocr : Bool) (env : PageEnv) : List OcrAttempt :=
  if env.openErr then [fallback_attempt width height]
  else
    match table_branch_result use_table_ocr env with
    | some _ => []
    | none =>
        match env.ocr1 with
        | .ok _ => [⟨width * height, timeout_ms⟩]
        | .failure => [⟨width * height, timeout_ms⟩, fallback_attempt width height]

/-! ### Full-document scheduler -/

/-- Environment of `ocr_full_pdf_tesseract_parallel`: the build-phase
rasterizer calls plus one page environment per page number. -/
structure SchedEnv where
  build : BuildEnv
  page : Nat → PageEnv

/-- What the scheduler records in `all_results` for one page
(tesseract_ocr.py:372-415): a conversion exception stores a
`conversion failed` placeholder (line 397); an *empty image list without
an exception* stores nothing at all (the `if images:` at line 384 has no
else branch, so the page silently disappears from the results); a
converted page is OCR'd, with the outer future timeout stored as a
`timeout` placeholder (line 415). -/
def page_result (profile : PageProfile) (env : PageEnv) :
    Option (Nat × String) :=
  match env.conv with
  | .failure =>
      some (profile.page_num,
        "[Page " ++ toString profile.page_num ++ " conversion failed]")
  | .emptyList => none
  | .ok _ _ =>
      if env.futureTimeout then
        some (profile.page_num,
          "[Page " ++ toString profile.page_num ++ ": timeout]")
      else some (ocr_single_page_adaptive profile.page_num
        profile.use_table_ocr env)

/-- The `all_results` dict of `ocr_full_pdf_tesseract_parallel`
(tesseract_ocr.py:353-415) as an association list.  The DPI grouping and
batching of the source only permute the order in which pages are
processed; since the dict is keyed by the pairwise-distinct page numbers
of the profiles and each page is converted and OCR'd exactly once, the
resulting key/value map is order-independent and is embedded in profile
order. -/
def all_results (senv : SchedEnv) : List (Nat × String) :=
  (sched_profiles senv.build).filterMap
    (fun p => page_result p (senv.page p.page_num))

/-- Insert into a sorted list (ascending). -/
def insertSorted (x : Nat) : List Nat → List Nat
  | [] => [x]
  | y :: ys => if x ≤ y then x :: y :: ys else y :: insertSorted x ys

/-- Ascending sort of page numbers (Python's `sorted`). -/
def sortNat : List Nat → List Nat
  | [] => []
  | x :: xs => insertSorted x (sortNat xs)

/-- Source expression `sorted(all_results.keys())` — the page numbers appearing in the final
text, i.e. exactly the set of `--- Page N ---` markers of the output. -/
def result_pages (senv : SchedEnv) : List Nat :=
  sortNat ((all_results senv).map (·.1))

/-- Dict lookup `all_results[p]` (last assignment wins, as in a Python
dict; keys are distinct here). -/
def dict_get (l : List (Nat × String)) (k : Nat) : String :=
  ((l.filter (fun e => e.1 == k)).map (·.2)).getLastD ""

/-- Source `ocr_full_pdf_tesseract_parallel` (tesseract_ocr.py:306-431): build
profiles, downgrade to fast mode if over budget, OCR every page, then
assemble `--- Page N ---` sections in page order.  Returns
`(full_text, len(all_results))`.  The outer catch-all (lines 429-431)
never fires in the embedding because every modelled operation returns
in-band. -/
def ocr_full_pdf_tesseract_parallel (senv : SchedEnv) : String × Nat :=
  let profiles := sched_profiles senv.build
  if profiles = [] then ("", 0)
  else
    let results := all_results senv
    let full_text := String.intercalate "\n\n"
      ((result_pages senv).map
        (fun p => "--- Page " ++ toString p ++ " ---\n" ++ dict_get results p))
    (full_text, results.length)

/-! ## Auxiliary predicates used by the statements -/

/-- Whether the fallback OCR attempt of `_ocr_fallback` fails to produce
usable text (exception, or empty stripped output). -/
def fb_failed (env : PageEnv) : Bool :=
  match env.fb with
  | .ok s => s.trim == ""
  | .failure => true

/-- Whether one page's outcome inside `ocr_pages_with_table_extraction` is
an empty or failed reconstruction (everything except non-empty returned
text). -/
def tp_failed_outcome : TablePageOutcome → Bool
  | .pageText s => s == ""
  | _ => true

/-- Whether the table re-OCR of page `p` under environment `tenv` is an
empty or failed result. -/
def tp_failed (tenv : TableEnv) (p : Nat) : Bool :=
  match tenv.wholeFail with
  | some _ => true
  | none => tp_failed_outcome (tenv.page p)

/-- Modelled from the spec: the spec bounds the fallback assignment
distance by "half a cell's average dimension", i.e. `((w + h) / 2) / 2`.
`spec_within_half_avg c d` states that distance `d` is within that bound,
written multiplicatively (`d ≤ (w + h) / 4  ↔  4 * d ≤ w + h`) to stay in
`ℤ`.  Stated only to compare the spec's bound with the source's
`(cell.w + cell.h) * 0.5`. -/
def spec_within_half_avg (c : GridCell) (d : Int) : Prop :=
  4 * d ≤ c.w + c.h

/-! ## Concrete environments used by counterexamples and witnesses -/

/-- Image statistics that classify as `MEDIUM_TABLE`
(`h_line_ratio 0.001 ≤ 0.005`, `edge_ratio 0.07 > 0.06`), scaled by
`10^6`. -/
def mediumFeatures : PageFeatures := ⟨70000, 500000, 1000⟩

/-- A 40-page document whose every page pre-scans as `MEDIUM_TABLE`. -/
def benv40 : BuildEnv :=
  ⟨.ok 40, .ok (List.replicate 40 (.ok mediumFeatures))⟩

/-- A single-page document whose page-1 conversion at target DPI returns an
empty image list without raising. -/
def senv1 : SchedEnv :=
  ⟨⟨.ok 1, .ok [.ok mediumFeatures]⟩,
   fun _ => ⟨.emptyList, false, .ok none, .ok "t", .ok "t", false⟩⟩

/-- A single-page document that classifies as `MEDIUM_TABLE`. -/
def benvMedium1 : BuildEnv := ⟨.ok 1, .ok [.ok mediumFeatures]⟩

/-- A page environment whose first OCR attempt fails and whose fallback
also fails. -/
def envBothFail : PageEnv :=
  ⟨.ok 100 200, false, .ok none, .failure, .failure, false⟩

/-- A 12-page OCR'd document with uniform page bodies. -/
def docC9 : List PageEntry := (List.range 12).map (fun i => ⟨i + 1, "text"⟩)

/-- A table-OCR environment where every page's rasterization yields no
image. -/
def tenvNoImages : TableEnv := ⟨none, fun _ => TablePageOutcome.noImages⟩

/-- A two-page OCR'd document. -/
def docW : List PageEntry := [⟨1, "alpha"⟩, ⟨2, "beta"⟩]

/-- A 100×100 cell at the origin. -/
def cellA : GridCell := ⟨0, 0, 0, 0, 100, 100, []⟩

/-- A word whose center `(140, 50)` lies outside `cellA` at Manhattan
distance 90 from its center `(50, 50)`. -/
def wordA : WordBox := ⟨"w", 140, 45, 0, 10, 90⟩

/-- A word whose center `(400, 400)` is far outside `cellA` (distance
700). -/
def wordFar : WordBox := ⟨"z", 400, 400, 0, 0, 90⟩

/-- A 60-character LaTeX string (long enough to pass the 50-character
gate). -/
def latex60 : String := String.mk (List.replicate 60 'a')

/-- A table whose serialized LaTeX has 60 characters. -/
def tableT : DetectedTable := ⟨0, 0, 0, 0, 2, 2, [], latex60⟩

/-- A page environment whose table call returns `tableT`. -/
def envTableOk : PageEnv :=
  ⟨.ok 100 200, false, .ok (some tableT), .ok "plain", .ok "plain", false⟩

/-! # Theorems -/

/-! ## String-containment helper lemmas -/

theorem listPrefixEq_append (n rest : List Char) :
    listPrefixEq n (n ++ rest) = true := by
  induction n with
  | nil => rfl
  | cons a as ih => simp [listPrefixEq, ih]

theorem containsSeg_of_prefix {n h : List Char} (hp : listPrefixEq n h = true) :
    containsSeg n h = true := by
  cases h with
  | nil => simpa [containsSeg] using hp
  | cons c cs => simp [containsSeg, hp]

theorem listPrefixEq_extend {n h : List Char} (post : List Char)
    (ht : listPrefixEq n h = true) : listPrefixEq n (h ++ post) = true := by
  induction n generalizing h with
  | nil => rfl
  | cons a as ih =>
    cases h with
    | nil => exact absurd ht (by simp [listPrefixEq])
    | cons b bs =>
      simp only [listPrefixEq, Bool.and_eq_true] at ht ⊢
      exact ⟨ht.1, ih ht.2⟩

theorem strContains_append_left (pre post needle : String)
    (hp : listPrefixEq needle.data pre.data = true) :
    strContains (pre ++ post) needle = true := by
  unfold strContains
  rw [String.data_append]
  exact containsSeg_of_prefix (listPrefixEq_extend post.data hp)

/-! ## Claim C2 — grid validity -/

/-- C2, counterexample: the claim states that `process_page_table` never
returns a `DetectedTable` with `row_count < 2` or `col_count < 2`.  With
exactly 2 detected horizontal lines and 3 vertical lines (each axis has the
required ≥ 2 lines, so the "no table" guard does not fire) the pipeline
constructs and returns a 1×2 table: `row_count = 1 < 2`. -/
theorem claim2_counterexample :
    (process_page_table [0, 100] [0, 100, 200] [] 0).map
        (fun t => (t.rows, t.cols)) = some (1, 2) ∧ (1 : Nat) < 2 := by
  exact ⟨by decide, by decide⟩

/-- C2, amended: `process_page_table` returns "no table" whenever fewer
than 2 horizontal or fewer than 2 vertical grid lines are detected (so no
0-row or 0-column table is ever constructed, and any returned table comes
from at least 2 lines per axis with `row_count ≥ 1` and `col_count ≥ 1`);
however a returned table may have `row_count = 1` or `col_count = 1`. -/
theorem claim2_grid_validity (h_positions v_positions : List Int)
    (words : List WordBox) (idx : Nat) :
    (h_positions.length < 2 ∨ v_positions.length < 2 →
      process_page_table h_positions v_positions words idx = none) ∧
    (∀ t, process_page_table h_positions v_positions words idx = some t →
      1 ≤ t.rows ∧ 1 ≤ t.cols ∧
        2 ≤ h_positions.length ∧ 2 ≤ v_positions.length) := by
  constructor
  · intro hlt
    have hempty : build_virtual_grid h_positions v_positions = [] := by
      unfold build_virtual_grid
      rw [if_pos hlt]
    unfold process_page_table
    simp [hempty]
  · intro t ht
    unfold process_page_table at ht
    by_cases hc : build_virtual_grid h_positions v_positions = []
    · simp [hc] at ht
    · have hguard : ¬(h_positions.length < 2 ∨ v_positions.length < 2) := by
        intro hlt
        exact hc (by unfold build_virtual_grid; rw [if_pos hlt])
      push_neg at hguard
      simp only [hc, if_neg, if_false, Option.some.injEq] at ht
      subst ht
      exact ⟨Nat.succ_le_succ (Nat.zero_le _), Nat.succ_le_succ (Nat.zero_le _),
        hguard.1, hguard.2⟩

/-- C2, witness: with a single horizontal line (fewer than 2), the
pipeline reports "no table". -/
theorem claim2_witness :
    process_page_table [0] [0, 100] [] 0 = none := by
  exact (claim2_grid_validity [0] [0, 100] [] 0).1 (by decide)

/-! ## Claim C4 — classifier error default -/

/-- C4, counterexample: the claim states the classifier's safe default on
internal error is the lightest-weight class.  The code's default is
`MEDIUM_TABLE`, whose tier (200 DPI, 8 s, table OCR) is strictly heavier
than the `IMAGE_HEAVY` tier (150 DPI, 5 s) in both resolution and timeout,
so the default is not the lightest-weight class. -/
theorem claim4_counterexample :
    classify_page_complexity ClassifyOutcome.error = PageType.medium ∧
    (profileFor 1 PageType.image).timeout_ms <
      (profileFor 1 PageType.medium).timeout_ms ∧
    (profileFor 1 PageType.image).dpi < (profileFor 1 PageType.medium).dpi ∧
    (profileFor 1 PageType.simple).timeout_ms <
      (profileFor 1 PageType.medium).timeout_ms := by
  exact ⟨rfl, by decide, by decide, by decide⟩

/-- C4, amended: the classifier is a total function of the analysis
outcome (every internal error is caught and mapped to a class, so no
exception propagates), and on any internal error it returns the
`MEDIUM_TABLE` class — a mid-weight default, strictly lighter than
`COMPLEX_TABLE` but strictly heavier than `SIMPLE_TEXT` and `IMAGE_HEAVY`. -/
theorem claim4_error_default :
    classify_page_complexity ClassifyOutcome.error = PageType.medium ∧
    (profileFor 1 PageType.medium).timeout_ms <
      (profileFor 1 PageType.complex).timeout_ms ∧
    (profileFor 1 PageType.medium).dpi < (profileFor 1 PageType.complex).dpi ∧
    (profileFor 1 PageType.simple).timeout_ms <
      (profileFor 1 PageType.medium).timeout_ms ∧
    (profileFor 1 PageType.simple).dpi < (profileFor 1 PageType.medium).dpi := by
  exact ⟨rfl, by decide, by decide, by decide, by decide⟩

/-! ## Claim C5 — build failure behaviour -/

/-- C5, counterexample: the claim states the Page Profile Builder raises
`DocumentUnreadable` exactly when the input cannot be opened/paginated.
On a document where both `pdfinfo` and the pre-scan conversion fail — the
fully-unreadable case — the code raises nothing: it caps the page count at
50 and returns 50 default profiles. -/
theorem claim5_counterexample :
    build_page_profiles ⟨PdfInfoOutcome.error, PrescanOutcome.error⟩ =
      Except.ok ((List.range 50).map (fun i => default_profile (i + 1))) ∧
    build_page_profiles ⟨PdfInfoOutcome.error, PrescanOutcome.error⟩ ≠
      Except.error DocError.documentUnreadable := by
  exact ⟨rfl, fun h => Except.noConfusion h⟩

/-- C5, amended: `build_page_profiles` never raises at all.  Whole-document
failures are absorbed in-band: a failed `pdfinfo` call is replaced by a
50-page cap, a failed pre-scan yields default `MEDIUM_TABLE` profiles, and
per-page classification failures degrade to the safe default inside the
classifier; every environment produces a normal (`Except.ok`) profile
list. -/
theorem claim5_never_raises (benv : BuildEnv) :
    ∃ l, build_page_profiles benv = Except.ok l := by
  unfold build_page_profiles
  by_cases h : total_pages_of benv.pdfinfo = 0
  · exact ⟨[], by simp [h]⟩
  · cases hp : benv.prescan with
    | error =>
        refine ⟨(List.range (total_pages_of benv.pdfinfo)).map
          (fun i => default_profile (i + 1)), ?_⟩
        simp [h, hp]
    | ok thumbs =>
        refine ⟨thumbs.enum.map
          (fun it => profileFor (it.1 + 1) (classify_page_complexity it.2)), ?_⟩
        simp [h, hp]

/-! ## Claim C6 — fast-mode downgrade -/

/-- C6, counterexample: the claim states that `build_page_profiles` itself
downgrades every profile before returning when the estimated cost exceeds
the ceiling.  For a 40-page all-`MEDIUM_TABLE` document the estimate is
`40 × 8 × 0.5 = 160 > 30`, yet every profile the builder returns still
carries the full `MEDIUM_TABLE` tier (200 DPI, 8 s): the downgrade is not
applied by the builder. -/
theorem claim6_counterexample :
    estimated_time_ms (profilesOf benv40) > 30000 ∧
    (profilesOf benv40).length = 40 ∧
    (profilesOf benv40).all
      (fun p => p.dpi == 200 && p.timeout_ms == 8000) = true := by
  exact ⟨by decide, by decide, by decide⟩

/-- C6, amended: the fast-mode downgrade is applied by the scheduler
(`ocr_full_pdf_tesseract_parallel`), not by the builder: when the
estimated total cost of the built profiles exceeds the 30-second ceiling,
every profile in the list the scheduler hands to per-page OCR has been
downgraded to `dpi ≤ 150`, `timeout ≤ 6 s`, and table OCR retained only
for `COMPLEX_TABLE` pages. -/
theorem claim6_downgrade (benv : BuildEnv) (p : PageProfile)
    (hest : estimated_time_ms (profilesOf benv) > 30000)
    (hp : p ∈ sched_profiles benv) :
    p.dpi ≤ 150 ∧ p.timeout_ms ≤ 6000 ∧
      p.use_table_ocr = decide (p.page_type = PageType.complex) := by
  unfold sched_profiles at hp
  rw [if_pos hest] at hp
  obtain ⟨q, _, rfl⟩ := List.mem_map.mp hp
  exact ⟨Nat.min_le_right _ _, Nat.min_le_right _ _, rfl⟩

/-- C6, witness: on the over-budget 40-page document, the first profile
handed to per-page OCR is the downgraded `MEDIUM_TABLE` tier. -/
theorem claim6_witness :
    (⟨1, PageType.medium, 150, 6, 6000, false⟩ : PageProfile).dpi ≤ 150 ∧
    (⟨1, PageType.medium, 150, 6, 6000, false⟩ : PageProfile).timeout_ms ≤ 6000 ∧
    (⟨1, PageType.medium, 150, 6, 6000, false⟩ : PageProfile).use_table_ocr =
      decide ((⟨1, PageType.medium, 150, 6, 6000, false⟩ : PageProfile).page_type
        = PageType.complex) := by
  exact claim6_downgrade benv40 ⟨1, PageType.medium, 150, 6, 6000, false⟩
    (by decide) (by decide)

/-! ## Claim C1 — completeness of the page map -/

/-- C1: on a 1-page document whose page-1 conversion at its target DPI
returns an empty image list without raising, the scheduler records nothing
for page 1 (`if images:` at tesseract_ocr.py:384 has no else branch): the
output text has no page marker at all and the reported page count is 0,
although the document has one requested page.  So a requested page can be
missing from the result, contradicting the completeness guarantee. -/
theorem claim1_missing_page :
    (profilesOf senv1.build).map (·.page_num) = [1] ∧
    result_pages senv1 = [] ∧
    (ocr_full_pdf_tesseract_parallel senv1).2 = 0 := by
  exact ⟨by decide, by decide, by decide⟩

/-! ## Claim C3 — bounded, cost-monotone fallback chain -/

theorem profile_timeout_lb (benv : BuildEnv) (p : PageProfile)
    (hp : p ∈ profilesOf benv) : 5000 ≤ p.timeout_ms := by
  unfold profilesOf build_page_profiles at hp
  by_cases h : total_pages_of benv.pdfinfo = 0
  · simp [h] at hp
  · cases hpre : benv.prescan with
    | error =>
        simp only [h, if_neg, if_false, hpre, List.mem_map] at hp
        obtain ⟨i, -, rfl⟩ := hp
        norm_num [default_profile]
    | ok thumbs =>
        simp only [h, if_neg, if_false, hpre, List.mem_map] at hp
        obtain ⟨it, -, rfl⟩ := hp
        cases classify_page_complexity it.2 <;> norm_num [profileFor]

theorem sched_timeout_lb (benv : BuildEnv) (p : PageProfile)
    (hp : p ∈ sched_profiles benv) : 5000 ≤ p.timeout_ms := by
  unfold sched_profiles at hp
  by_cases hest : estimated_time_ms (profilesOf benv) > 30000
  · rw [if_pos hest] at hp
    obtain ⟨q, hq, rfl⟩ := List.mem_map.mp hp
    exact le_min (profile_timeout_lb benv q hq) (by norm_num)
  · rw [if_neg hest] at hp
    exact profile_timeout_lb benv p hp

theorem fb_failed_placeholder (n : Nat) (env : PageEnv)
    (hfb : fb_failed env = true) :
    ocr_fallback n env = (n, ocr_failed_placeholder n) := by
  unfold ocr_fallback
  unfold fb_failed at hfb
  cases henv : env.fb with
  | ok s =>
      rw [henv] at hfb
      have hs : s.trim = "" := by simpa using hfb
      simp [hs]
  | failure => rfl

theorem ocr_fallback_fst (n : Nat) (env : PageEnv) :
    (ocr_fallback n env).1 = n := by
  unfold ocr_fallback
  cases env.fb with
  | ok s => by_cases hs : s.trim = "" <;> simp [hs]
  | failure => rfl

/-- C3: for every page profile the scheduler produces, the per-page OCR
chain issues at most two plain-text OCR attempts; a second attempt exists
only when the first attempt raised or timed out, and it is cost-monotone
(its image has no more pixels than the first attempt's, and its 5-second
timeout is no larger than the first attempt's budget, which is at least
5 s for every profile of the pipeline); when the fallback attempt also
fails (or yields empty text) the page's outcome is the terminal
placeholder string, and in every case the chain returns a result for its
page rather than raising. -/
theorem claim3_fallback_chain (benv : BuildEnv) (p : PageProfile)
    (hp : p ∈ sched_profiles benv) (width height : Nat) (env : PageEnv) :
    (ocr_attempt_trace width height p.timeout_ms p.use_table_ocr env).length ≤ 2 ∧
    (∀ a b,
      ocr_attempt_trace width height p.timeout_ms p.use_table_ocr env = [a, b] →
      b.pixels ≤ a.pixels ∧ b.timeout_ms ≤ a.timeout_ms ∧
        env.openErr = false ∧ env.ocr1 = Ocr1Outcome.failure) ∧
    (env.openErr = true → fb_failed env = true →
      ocr_single_page_adaptive p.page_num p.use_table_ocr env =
        (p.page_num, ocr_failed_placeholder p.page_num)) ∧
    (table_branch_result p.use_table_ocr env = none →
      env.ocr1 = Ocr1Outcome.failure → fb_failed env = true →
      ocr_single_page_adaptive p.page_num p.use_table_ocr env =
        (p.page_num, ocr_failed_placeholder p.page_num)) ∧
    (ocr_single_page_adaptive p.page_num p.use_table_ocr env).1 = p.page_num := by
  have htm : 5000 ≤ p.timeout_ms := sched_timeout_lb benv p hp
  refine ⟨?_, ?_, ?_, ?_, ?_⟩
  · unfold ocr_attempt_trace
    cases hoe : env.openErr with
    | true => simp
    | false =>
        simp only [Bool.false_eq_true, if_false]
        cases table_branch_result p.use_table_ocr env with
        | some latex => simp
        | none => cases env.ocr1 <;> simp
  · intro a b hab
    unfold ocr_attempt_trace at hab
    cases hoe : env.openErr with
    | true => rw [hoe] at hab; simp at hab
    | false =>
        rw [hoe] at hab
        simp only [Bool.false_eq_true, if_false] at hab
        cases htb : table_branch_result p.use_table_ocr env with
        | some latex => rw [htb] at hab; simp at hab
        | none =>
            rw [htb] at hab
            cases hocr : env.ocr1 with
            | ok t => rw [hocr] at hab; simp at hab
            | failure =>
                rw [hocr] at hab
                simp only [List.cons.injEq, and_true] at hab
                obtain ⟨rfl, rfl⟩ := hab
                refine ⟨?_, htm, rfl, rfl⟩
                exact Nat.mul_le_mul (Nat.div_le_self width 2)
                  (Nat.div_le_self height 2)
  · intro hoe hfb
    unfold ocr_single_page_adaptive
    rw [hoe]
    simpa using fb_failed_placeholder p.page_num env hfb
  · intro htb hocr hfb
    unfold ocr_single_page_adaptive
    cases hoe : env.openErr with
    | true => simpa using fb_failed_placeholder p.page_num env hfb
    | false =>
        simp only [Bool.false_eq_true, if_false, htb]
        unfold standard_ocr
        rw [hocr]
        exact fb_failed_placeholder p.page_num env hfb
  · unfold ocr_single_page_adaptive
    cases env.openErr with
    | true => simpa using ocr_fallback_fst p.page_num env
    | false =>
        simp only [Bool.false_eq_true, if_false]
        cases table_branch_result p.use_table_ocr env with
        | some latex => rfl
        | none =>
            unfold standard_ocr
            cases env.ocr1 with
            | ok t => rfl
            | failure => exact ocr_fallback_fst p.page_num env

/-- C3, witness: on a one-page `MEDIUM_TABLE` document with a page whose
first OCR attempt and fallback both fail, the attempt trace is bounded by
two and the chain still returns a result tagged with its page number. -/
theorem claim3_witness :
    (ocr_attempt_trace 100 200 (profileFor 1 PageType.medium).timeout_ms
      (profileFor 1 PageType.medium).use_table_ocr envBothFail).length ≤ 2 ∧
    (ocr_single_page_adaptive (profileFor 1 PageType.medium).page_num
      (profileFor 1 PageType.medium).use_table_ocr envBothFail).1 =
      (profileFor 1 PageType.medium).page_num := by
  have h := claim3_fallback_chain benvMedium1 (profileFor 1 PageType.medium)
    (by decide) 100 200 envBothFail
  exact ⟨h.1, h.2.2.2.2⟩

/-! ## Claim C10 — 50-character gate on the table branch -/

/-- C10: in `_ocr_single_page_adaptive`, for a page flagged for table OCR
(and whose image opened), the table result becomes the page's first-pass
text exactly when a table was returned and its LaTeX is strictly longer
than 50 characters; when the table is absent, its LaTeX is ≤ 50
characters, or the table call raised, the page proceeds to the standard
plain-OCR path instead.  (The source's additional truthiness test
`table.latex` is redundant: length > 50 already implies non-emptiness.) -/
theorem claim10_table_gate (page_num : Nat) (env : PageEnv)
    (hopen : env.openErr = false) :
    (∀ t, env.tableCall = TableCallOutcome.ok (some t) →
      50 < t.latex.length →
      ocr_single_page_adaptive page_num true env = (page_num, t.latex)) ∧
    (∀ t, env.tableCall = TableCallOutcome.ok (some t) →
      t.latex.length ≤ 50 →
      ocr_single_page_adaptive page_num true env = standard_ocr page_num env) ∧
    (env.tableCall = TableCallOutcome.ok none →
      ocr_single_page_adaptive page_num true env = standard_ocr page_num env) ∧
    (env.tableCall = TableCallOutcome.raised →
      ocr_single_page_adaptive page_num true env = standard_ocr page_num env) := by
  have hne : ∀ t : DetectedTable, 50 < t.latex.length → t.latex ≠ "" := by
    intro t hlen he
    rw [he] at hlen
    simp [String.length] at hlen
  refine ⟨?_, ?_, ?_, ?_⟩
  · intro t htc hlen
    unfold ocr_single_page_adaptive table_branch_result
    rw [hopen, htc]
    simp [hne t hlen, hlen]
  · intro t htc hlen
    unfold ocr_single_page_adaptive table_branch_result
    rw [hopen, htc]
    have : ¬(t.latex ≠ "" ∧ t.latex.length > 50) := by
      rintro ⟨-, hgt⟩
      omega
    simp [this]
  · intro htc
    unfold ocr_single_page_adaptive table_branch_result
    rw [hopen, htc]
    simp
  · intro htc
    unfold ocr_single_page_adaptive table_branch_result
    rw [hopen, htc]
    simp

/-- C10, witness: a flagged page whose table call returns a 60-character
LaTeX table yields exactly that LaTeX as the page result. -/
theorem claim10_witness :
    ocr_single_page_adaptive 3 true envTableOk = (3, latex60) := by
  exact (claim10_table_gate 3 envTableOk rfl).1 tableT rfl (by decide)

/-! ## Claim C7 — word-to-cell assignment -/

theorem enum_get? {α : Type _} {l : List α} {i : Nat} {x : α}
    (h : (i, x) ∈ l.enum) : l.get? i = some x := by
  obtain ⟨-, hlt, hx⟩ := List.mem_enumFrom h
  rw [List.get?_eq_some]
  refine ⟨by omega, ?_⟩
  simp only [Nat.sub_zero] at hx
  simp [List.get_eq_getElem, hx]

theorem scan_step_sound (cells : List GridCell) (cx cy : Int)
    (acc : Option (Nat × Int)) (q : Nat × GridCell)
    (hq : cells.get? q.1 = some q.2)
    (hacc : ∀ i d, acc = some (i, d) → ∃ c, cells.get? i = some c ∧
      d = word_cell_dist c cx cy ∧ 2 * d < max_fallback_dist_twice c) :
    ∀ i d, scan_step cx cy acc q = some (i, d) → ∃ c, cells.get? i = some c ∧
      d = word_cell_dist c cx cy ∧ 2 * d < max_fallback_dist_twice c := by
  intro i d hstep
  unfold scan_step at hstep
  cases acc with
  | none =>
      dsimp only at hstep
      by_cases hd : 2 * word_cell_dist q.2 cx cy < max_fallback_dist_twice q.2
      · rw [if_pos hd] at hstep
        obtain ⟨rfl, rfl⟩ : q.1 = i ∧ word_cell_dist q.2 cx cy = d := by
          simpa using hstep
        exact ⟨q.2, hq, rfl, hd⟩
      · rw [if_neg hd] at hstep
        exact absurd hstep (by simp)
  | some bp =>
      obtain ⟨bi, bd⟩ := bp
      dsimp only at hstep
      by_cases hd : word_cell_dist q.2 cx cy < bd ∧
          2 * word_cell_dist q.2 cx cy < max_fallback_dist_twice q.2
      · rw [if_pos hd] at hstep
        obtain ⟨rfl, rfl⟩ : q.1 = i ∧ word_cell_dist q.2 cx cy = d := by
          simpa using hstep
        exact ⟨q.2, hq, rfl, hd.2⟩
      · rw [if_neg hd] at hstep
        obtain ⟨rfl, rfl⟩ : bi = i ∧ bd = d := by simpa using hstep
        exact hacc _ _ rfl

theorem scan_fold_sound (cells : List GridCell) (cx cy : Int) :
    ∀ (L : List (Nat × GridCell)) (acc : Option (Nat × Int)),
      (∀ q ∈ L, cells.get? q.1 = some q.2) →
      (∀ i d, acc = some (i, d) → ∃ c, cells.get? i = some c ∧
        d = word_cell_dist c cx cy ∧ 2 * d < max_fallback_dist_twice c) →
      ∀ i d, L.foldl (scan_step cx cy) acc = some (i, d) →
        ∃ c, cells.get? i = some c ∧ d = word_cell_dist c cx cy ∧
          2 * d < max_fallback_dist_twice c := by
  intro L
  induction L with
  | nil => intro acc _ hacc i d h; exact hacc i d h
  | cons q L ih =>
      intro acc hL hacc i d h
      refine ih (scan_step cx cy acc q)
        (fun r hr => hL r (List.mem_cons_of_mem _ hr)) ?_ i d h
      exact scan_step_sound cells cx cy acc q (hL q (List.mem_cons_self _ _)) hacc

theorem scan_fold_none (cx cy : Int) :
    ∀ (L : List (Nat × GridCell)),
      (∀ q ∈ L, max_fallback_dist_twice q.2 ≤ 2 * word_cell_dist q.2 cx cy) →
      L.foldl (scan_step cx cy) none = none := by
  intro L
  induction L with
  | nil => intro _; rfl
  | cons q L ih =>
      intro hL
      have hstep : scan_step cx cy none q = none := by
        unfold scan_step
        rw [if_neg (not_lt.mpr (hL q (List.mem_cons_self _ _)))]
      rw [List.foldl_cons, hstep]
      exact ih (fun r hr => hL r (List.mem_cons_of_mem _ hr))

/-- C7, amended: the word's bounding-box center is assigned to the first
cell whose rectangle contains it; when no cell contains it, the word is
assigned to the (first strictly) nearest cell center, but only when its
Manhattan distance is strictly less than the cell's *average dimension*
`(w + h) / 2` (the source's `max_dist = (cell.w + cell.h) * 0.5`, stated
multiplicatively as `2·d < w + h`) — not within *half* the average
dimension as the claim states; words farther than this bound from every
cell center are dropped. -/
theorem claim7_word_assignment (cells : List GridCell) (wb : WordBox) :
    (∀ i, cells.findIdx?
        (fun c => cell_contains c (word_center wb).1 (word_center wb).2) = some i →
      assign_word cells wb = modifyAt cells i (appendWord wb)) ∧
    ((∀ c ∈ cells, cell_contains c (word_center wb).1 (word_center wb).2 = false) →
      (∀ c ∈ cells, max_fallback_dist_twice c ≤
        2 * word_cell_dist c (word_center wb).1 (word_center wb).2) →
      assign_word cells wb = cells) ∧
    ((∀ c ∈ cells, cell_contains c (word_center wb).1 (word_center wb).2 = false) →
      ∀ i d, fallback_scan cells (word_center wb).1 (word_center wb).2 = some (i, d) →
        ∃ c, cells.get? i = some c ∧
          d = word_cell_dist c (word_center wb).1 (word_center wb).2 ∧
          2 * d < max_fallback_dist_twice c ∧
          assign_word cells wb = modifyAt cells i (appendWord wb)) := by
  refine ⟨?_, ?_, ?_⟩
  · intro i h
    unfold assign_word
    dsimp only
    rw [h]
  · intro hcont hfar
    have hidx : cells.findIdx?
        (fun c => cell_contains c (word_center wb).1 (word_center wb).2) = none :=
      List.findIdx?_eq_none_iff.mpr hcont
    have hscan : fallback_scan cells (word_center wb).1 (word_center wb).2 = none := by
      unfold fallback_scan
      refine scan_fold_none _ _ cells.enum ?_
      intro q hq
      exact hfar q.2 (List.get?_mem (enum_get? (by simpa using hq)))
    unfold assign_word
    dsimp only
    rw [hidx, hscan]
  · intro hcont i d hscan
    have hidx : cells.findIdx?
        (fun c => cell_contains c (word_center wb).1 (word_center wb).2) = none :=
      List.findIdx?_eq_none_iff.mpr hcont
    have hsound := scan_fold_sound cells (word_center wb).1 (word_center wb).2
      cells.enum none
      (fun q hq => enum_get? (by simpa using hq))
      (fun _ _ h => absurd h (by simp)) i d hscan
    obtain ⟨c, hc, hd, hlt⟩ := hsound
    refine ⟨c, hc, hd, hlt, ?_⟩
    unfold assign_word
    dsimp only
    rw [hidx]
    rw [hscan]

/-- C7, counterexample: the claim bounds the fallback assignment by half a
cell's average dimension (here `(100 + 100)/4 = 50`).  A word at Manhattan
distance 90 from the only cell's center — outside the cell and beyond the
claimed bound — is nevertheless assigned to it, because the source's bound
is `(w + h) * 0.5 = 100`. -/
theorem claim7_counterexample :
    (assign_words_to_cells [cellA] [wordA]).map (·.words) = [["w"]] ∧
    cell_contains cellA 140 50 = false ∧
    word_center wordA = (140, 50) ∧
    word_cell_dist cellA 140 50 = 90 ∧
    ¬ spec_within_half_avg cellA 90 := by
  refine ⟨by decide, by decide, by decide, by decide, ?_⟩
  unfold spec_within_half_avg
  decide

/-- C7, witness: a word farther than the source's bound from the only
cell's center is dropped (the cell list is unchanged). -/
theorem claim7_witness : assign_word [cellA] wordFar = [cellA] := by
  exact (claim7_word_assignment [cellA] wordFar).2.1 (by decide) (by decide)

/-! ## Claim C8 — merge non-destructiveness and frame preservation -/

theorem is_failed_of_ocr_prefix (pre rest : String)
    (h : listPrefixEq ("[OCR".data) pre.data = true) :
    is_failed_table_text (pre ++ rest) = true := by
  unfold is_failed_table_text
  rw [strContains_append_left pre rest _ h]
  rfl

theorem is_failed_of_page_prefix (pre rest : String)
    (h : listPrefixEq ("[Page".data) pre.data = true) :
    is_failed_table_text (pre ++ rest) = true := by
  unfold is_failed_table_text
  rw [strContains_append_left pre rest _ h, Bool.or_true]

theorem tp_result_failed (n : Nat) (o : TablePageOutcome)
    (h : tp_failed_outcome o = true) :
    is_failed_table_text (tp_result n o) = true := by
  cases o with
  | convRaise m =>
      unfold tp_result
      simp only [String.append_assoc]
      exact is_failed_of_ocr_prefix _ _ (by decide)
  | noImages =>
      unfold tp_result
      simp only [String.append_assoc]
      exact is_failed_of_page_prefix _ _ (by decide)
  | pageRaise m =>
      unfold tp_result
      simp only [String.append_assoc]
      exact is_failed_of_ocr_prefix _ _ (by decide)
  | pageText s =>
      have hs : s = "" := by simpa [tp_failed_outcome] using h
      subst hs
      unfold tp_result
      simp only [if_pos rfl, String.append_assoc]
      exact is_failed_of_page_prefix _ _ (by decide)

theorem foldl_merge_get? (results : List (Nat × String)) :
    ∀ (acc : List PageEntry) (i : Nat) (e : PageEntry),
      acc.get? i = some e →
      (∀ r ∈ results, is_failed_table_text r.2 = true ∨ r.1 ≠ e.num) →
      (results.foldl merge_one acc).get? i = some e := by
  induction results with
  | nil => intro acc i e h _; exact h
  | cons r rs ih =>
      intro acc i e h hall
      rw [List.foldl_cons]
      refine ih (merge_one acc r) i e ?_
        (fun r' hr' => hall r' (List.mem_cons_of_mem _ hr'))
      unfold merge_one
      by_cases hf : is_failed_table_text r.2 = true
      · rw [if_pos hf]; exact h
      · rw [if_neg hf]
        rcases hall r (List.mem_cons_self _ _) with hfr | hne
        · exact absurd hfr hf
        · have hbeq : (e.num == r.1) = false := by
            simp only [beq_eq_false_iff_ne]
            exact fun hh => hne hh.symm
          have hcond : ¬(e.num == r.1) = true := by
            rw [hbeq]; exact Bool.false_ne_true
          rw [List.get?_map, h, Option.map_some', if_neg hcond]

/-- C8: the merge of `reocr_bordereau_pages` is non-destructive on failure
and frame-preserving.  For any page `p` of the document, if the table
re-OCR of `p` yields an empty or failed result (rasterization failure,
missing image, per-page or whole-call exception, or empty text — all of
which surface as `[OCR …]`/`[Page …]` placeholders), or if `p` was not
selected at all, then the merged document's entry for `p` is identical to
the pre-merge entry. -/
theorem claim8_merge_nondestructive (doc : List PageEntry)
    (force_pages : Option (List Nat)) (detected : List Nat) (tenv : TableEnv)
    (p : Nat)
    (hfail : tp_failed tenv p = true ∨
      p ∉ select_pages_tesseract force_pages detected)
    (i : Nat) (e : PageEntry) (hget : doc.get? i = some e) (hnum : e.num = p) :
    (reocr_bordereau_pages doc force_pages detected tenv).get? i = some e := by
  unfold reocr_bordereau_pages
  by_cases hsel : select_pages_tesseract force_pages detected = []
  · rw [if_pos hsel]; exact hget
  · rw [if_neg hsel]
    apply foldl_merge_get? _ _ _ _ hget
    intro r hr
    unfold ocr_pages_with_table_extraction at hr
    cases hwf : tenv.wholeFail with
    | some m =>
        rw [hwf] at hr
        obtain ⟨q, hq, rfl⟩ := List.mem_map.mp hr
        left
        simp only [String.append_assoc]
        exact is_failed_of_ocr_prefix _ _ (by decide)
    | none =>
        rw [hwf] at hr
        obtain ⟨q, hq, rfl⟩ := List.mem_map.mp hr
        rcases hfail with hf | hnp
        · by_cases hqp : q = e.num
          · left
            subst hqp
            rw [hnum]
            apply tp_result_failed
            unfold tp_failed at hf
            rw [hwf] at hf
            exact hf
          · right; exact hqp
        · right
          intro hq1
          exact hnp (by rw [← hnum, ← hq1]; exact hq)

/-- C8, witness: on a two-page document where page 2 is selected but its
rasterization yields no image, page 2's entry in the merged output is
byte-identical to the original. -/
theorem claim8_witness :
    (reocr_bordereau_pages docW none [2] tenvNoImages).get? 1 =
      some ⟨2, "beta"⟩ := by
  exact claim8_merge_nondestructive docW none [2] tenvNoImages 2
    (Or.inl (by decide)) 1 ⟨2, "beta"⟩ rfl rfl

/-! ## Claim C9 — last-N-pages fallback -/

/-- C9, counterexample: the claim states that when the keyword heuristic
detects no qualifying pages and no pages are forced, the system selects
the last N pages.  In `reocr_bordereau_pages` (the keyword-heuristic
variant of table_ocr.py, the core's entry point), an empty detection
selects nothing and returns the original text unchanged — no last-N range
(which would be the non-empty `[3 … 12]` on a 12-page document) is ever
selected there. -/
theorem claim9_counterexample :
    select_pages_tesseract none [] = [] ∧
    reocr_bordereau_pages docC9 none [] tenvNoImages = docC9 ∧
    azure_last_pages 12 = [3, 4, 5, 6, 7, 8, 9, 10, 11, 12] ∧
    ([] : List Nat) ≠ azure_last_pages 12 := by
  exact ⟨rfl, rfl, by decide, by decide⟩

/-- C9, amended: the last-N fallback exists only in the Azure variant
(`reocr_bordereau_pages_azure`): there, when the page detection is empty
and no pages were forced, the last `min(10, total)` pages (computed from
the page markers, then truncated to at most 15) are selected; forced or
detected pages are never overridden by the fallback.  The
keyword-heuristic variant (`reocr_bordereau_pages`) has no such fallback
and returns the original text unchanged on empty detection. -/
theorem claim9_last_n_fallback (force_pages : Option (List Nat))
    (detected : List Nat) (markers : List Nat) :
    (force_falsy force_pages = true → detected = [] → markers ≠ [] →
      select_pages_azure force_pages detected markers =
        some ((azure_last_pages (max_marker markers)).take 15)) ∧
    (∀ q rest, force_pages = some (q :: rest) →
      select_pages_azure force_pages detected markers =
        some ((q :: rest).take 15)) ∧
    (force_falsy force_pages = true → detected ≠ [] →
      select_pages_azure force_pages detected markers =
        some (detected.take 15)) ∧
    (∀ (doc : List PageEntry) (tenv : TableEnv),
      reocr_bordereau_pages doc none [] tenv = doc) := by
  refine ⟨?_, ?_, ?_, ?_⟩
  · intro hff hdet hmk
    subst hdet
    unfold select_pages_azure
    cases force_pages with
    | none => simp [hmk]
    | some l =>
        cases l with
        | nil => simp [hmk]
        | cons a as => exact absurd hff (by simp [force_falsy])
  · intro q rest hfp
    subst hfp
    unfold select_pages_azure
    simp
  · intro hff hdet
    unfold select_pages_azure
    cases force_pages with
    | none => simp [hdet]
    | some l =>
        cases l with
        | nil => simp [hdet]
        | cons a as => exact absurd hff (by simp [force_falsy])
  · intro doc tenv
    rfl

/-- C9, witness: on a document whose only page marker is 12, empty
detection and no forced pages select exactly the last ten pages
`[3 … 12]` in the Azure variant. -/
theorem claim9_witness :
    select_pages_azure none [] [12] =
      some [3, 4, 5, 6, 7, 8, 9, 10, 11, 12] := by
  exact ((claim9_last_n_fallback none [] [12]).1 rfl rfl (by decide)).trans
    (by decide)

end TenderOCR
